import Mathlib

/-!
Shallow embedding of `lambda_code/lambda_function.py`: a CloudWatch-metrics
to Excel-dashboard pipeline (list metrics per namespace, render widget images
with retry, assemble a workbook with an image grid and a catalog, store to S3
and email size-budgeted attachments).

Conventions of the embedding:
* Python dict lookups `d["K"]` on possibly-missing keys are modelled with
  `Option` fields read through `getKey`, which returns `Except` (a raised
  `KeyError` becomes `Except.error`).
* Image byte strings are `List Nat`; Python truthiness of `img` (both `None`
  and the empty byte string are falsy) is `imgTruthy`.
* The thread pool of `lambda_handler` is modelled by a per-request result
  oracle (`Except` covers an exception escaping `fut.result()`) together with
  a completion-order list, which `as_completed` guarantees to be a
  permutation of the request indices.
* Wall-clock time (`iso_now`) enters as an explicit `now : String` argument;
  `time.sleep` calls are recorded in a trace rather than performed.
* The serialized workbook is modelled by the `Document` structure holding
  every input-dependent value written by `build_excel`; xlsxwriter itself is
  a deterministic serializer, so byte identity of workbooks is modelled by
  equality of `Document`s. Its byte length is abstracted by a `sizer`
  collaborator where the driver needs `len(excel_bytes)`.
-/

deriving instance DecidableEq for Except

abbrev Img : Type := List Nat

/-- Environment-variable configuration of the module (lines 25-41 of the source). -/
structure Config where
  region : String
  sesSender : String
  sesRecipients : List String
  s3Bucket : String
  lookbackIso : String
  periodSeconds : Nat
  maxMetricsPerNs : Nat
  imgScale : ℚ
  attachExcel : Bool
  maxEmailMb : ℚ
  concurrency : Nat
  widgetWidth : Nat
  widgetHeight : Nat
  s3Folder : String
  renderSleepSec : ℚ
deriving DecidableEq

/-- One entry of a metric's `Dimensions` list; either key may be absent. -/
structure RawDim where
  name : Option String
  value : Option String
deriving DecidableEq

/-- A raw metric dict as returned by ListMetrics (`Namespace`, `MetricName`,
`Dimensions` may each be absent). -/
structure RawMetric where
  ns : Option String
  metricName : Option String
  dimensions : List RawDim
deriving DecidableEq

/-- Dict access `d[k]`: a missing key raises `KeyError` (modelled as `Except.error`). -/
def getKey (k : String) : Option α → Except String α
  | some v => Except.ok v
  | none => Except.error ("KeyError: " ++ k)

/-- Model of `safe`: replace every character outside `[A-Za-z0-9._-]` by an underscore. -/
def allowedChar (c : Char) : Bool :=
  c.isAlphanum || c = '.' || c = '_' || c = '-'

def safe (s : String) : String :=
  String.mk (s.data.map fun c => if allowedChar c then c else '_')

/-- The widget dict built by `build_widget` (lines 95-107). -/
structure Widget where
  title : String
  view : String
  stacked : Bool
  stat : String
  period : Nat
  metrics : List (List String)
  start : String
  endTime : String
  width : Nat
  height : Nat
  yAxisLeftMin : Nat
deriving DecidableEq

/-- The `dim_pairs` accumulation of `build_widget`: `[d["Name"], d["Value"], ...]`
flattened in order; a missing key raises. -/
def dimPairs : List RawDim → Except String (List String)
  | [] => Except.ok []
  | d :: ds =>
    match getKey "Name" d.name with
    | Except.error e => Except.error e
    | Except.ok n =>
      match getKey "Value" d.value with
      | Except.error e => Except.error e
      | Except.ok v =>
        match dimPairs ds with
        | Except.error e => Except.error e
        | Except.ok rest => Except.ok (n :: v :: rest)

/-- Model of `build_widget` (lines 90-107). Reads `metric["Namespace"]` and
`metric["MetricName"]` (raising on absence), flattens the dimension pairs and
builds the widget dict. -/
def build_widget (cfg : Config) (m : RawMetric) : Except String Widget :=
  match getKey "Namespace" m.ns with
  | Except.error e => Except.error e
  | Except.ok nsv =>
    match getKey "MetricName" m.metricName with
    | Except.error e => Except.error e
    | Except.ok name =>
      match dimPairs m.dimensions with
      | Except.error e => Except.error e
      | Except.ok pairs =>
        Except.ok
          { title := name
            view := "timeSeries"
            stacked := false
            stat := "Average"
            period := cfg.periodSeconds
            metrics := [[nsv, name] ++ pairs]
            start := cfg.lookbackIso
            endTime := "PT0M"
            width := cfg.widgetWidth
            height := cfg.widgetHeight
            yAxisLeftMin := 0 }

/-- The list comprehension `[build_widget(m) for m in metrics]` (line 319):
the first raised `KeyError` aborts the whole comprehension. -/
def buildWidgets (cfg : Config) : List RawMetric → Except String (List Widget)
  | [] => Except.ok []
  | m :: rest =>
    match build_widget cfg m with
    | Except.error e => Except.error e
    | Except.ok w =>
      match buildWidgets cfg rest with
      | Except.error e => Except.error e
      | Except.ok ws => Except.ok (w :: ws)

/-- Retry backoff base of `render_widget_image`: `time.sleep(0.3 * attempt)`. -/
def backoffBase : ℚ := 3 / 10

/-- Trace of one `render_widget_image` call: how many attempts ran, the backoff
sleeps performed after failed attempts (in order), and the returned value
(`none` models the `return None` after exhausting retries). -/
structure RenderTrace where
  calls : Nat
  backoffs : List ℚ
  result : Option Img
deriving DecidableEq

/-- The retry loop of `render_widget_image` (lines 109-121): `attempt` is the
1-based attempt counter, the second argument the remaining attempts. Each
attempt consults the oracle `attemptRes`; a `ClientError`/`BotoCoreError` is
an `Except.error`, after which the code sleeps `backoffBase * attempt` and
retries. -/
def renderAttempt (attemptRes : Nat → Except String Img) : Nat → Nat → RenderTrace
  | _, 0 => ⟨0, [], none⟩
  | attempt, r + 1 =>
    match attemptRes attempt with
    | Except.ok img => ⟨1, [], some img⟩
    | Except.error _ =>
      let t := renderAttempt attemptRes (attempt + 1) r
      ⟨t.calls + 1, backoffBase * attempt :: t.backoffs, t.result⟩

/-- Model of `render_widget_image(widget, max_retries=3)`: runs up to
`maxRetries` attempts starting at attempt 1 and never raises. -/
def render_widget_image (attemptRes : Nat → Except String Img) (maxRetries : Nat) : RenderTrace :=
  renderAttempt attemptRes 1 maxRetries

/-- Python truthiness of an optional byte string (`if not img: ...`):
`None` and the empty byte string are both falsy. -/
def imgTruthy : Option Img → Bool
  | some bs => decide (bs ≠ [])
  | none => false

/-- One element of `rendered_items`: the dict
`{"title": w["title"], "img": img, "metric": m}` (line 334). -/
structure Item where
  title : String
  img : Option Img
  metric : RawMetric
deriving DecidableEq

/-- Value delivered by `fut.result()` under the `try` of lines 330-333: an
exception (`Except.error`) is caught and leaves `img = None`. -/
def resImg : Except String (Option Img) → Option Img
  | Except.ok o => o
  | Except.error _ => none

/-- The result-collection loop of `lambda_handler` (lines 322-334): futures
complete in the order given by `order` (a permutation of the request indices,
as guaranteed by `as_completed`); each completed future contributes exactly
one `rendered_items` entry, a raised exception contributing `img = None`.
Out-of-range indices (impossible for a permutation) are dropped. -/
def collectRendered (widgets : List Widget) (metrics : List RawMetric)
    (res : Nat → Except String (Option Img)) (order : List Nat) : List Item :=
  order.filterMap fun i =>
    match widgets[i]?, metrics[i]? with
    | some w, some m => some ⟨w.title, resImg (res i), m⟩
    | _, _ => none

/-- Order on items used by `rendered_items.sort(key=lambda it: it["title"])`. -/
def titleLe (a b : Item) : Prop := a.title ≤ b.title

instance : DecidableRel titleLe := fun a b =>
  decidable_of_iff (a.title.toList ≤ b.title.toList) String.le_iff_toList_le.symm

instance : IsTotal Item titleLe := ⟨fun a b => le_total a.title b.title⟩

instance : IsTrans Item titleLe := ⟨fun _ _ _ hab hbc => le_trans hab hbc⟩

/-- Model of `rendered_items.sort(key=...)` (line 336). Python's sort is
stable, and a stable sort's output is uniquely determined by the key
comparison, so stable insertion sort is an exact model. -/
def sortItems (items : List Item) : List Item := items.insertionSort titleLe

/-- One row of the Catalog sheet's table (lines 216-224). -/
structure CatalogRow where
  metricName : String
  dims : String
  stat : String
  period : Nat
  rendered : String
deriving DecidableEq

/-- The per-dimension strings of `format_dims` (line 128); missing keys raise. -/
def dimStrings : List RawDim → Except String (List String)
  | [] => Except.ok []
  | d :: ds =>
    match getKey "Name" d.name with
    | Except.error e => Except.error e
    | Except.ok n =>
      match getKey "Value" d.value with
      | Except.error e => Except.error e
      | Except.ok v =>
        match dimStrings ds with
        | Except.error e => Except.error e
        | Except.ok rest => Except.ok ((n ++ "=" ++ v) :: rest)

/-- Model of `format_dims` (lines 124-128). -/
def format_dims (m : RawMetric) : Except String String :=
  if m.dimensions.isEmpty then Except.ok "-"
  else
    match dimStrings m.dimensions with
    | Except.error e => Except.error e
    | Except.ok parts => Except.ok (String.intercalate ", " parts)

/-- One inserted chart image of the Dashboard sheet: its anchor cell, the cell
of the label written beneath it, the image name and bytes, and the label. -/
structure GridCell where
  row : Nat
  col : Nat
  labelRow : Nat
  imageName : String
  img : Img
  label : String
deriving DecidableEq

/-- The cell produced for the item at overall index `idx` of the (sorted) item
list, using the source constants `start_row=13`, `col_count=3`,
`row_stride=22`, `col_stride=2`, `label_offset=18`, `base_col=1`
(lines 186-203). -/
def gridCellAt (idx : Nat) (it : Item) (im : Img) : GridCell :=
  { row := 13 + (idx / 3) * 22
    col := 1 + (idx % 3) * 2
    labelRow := 13 + (idx / 3) * 22 + 18
    imageName := safe it.title ++ ".png"
    img := im
    label := it.title }

/-- The image-grid loop (lines 194-203): `enumerate(items)` indexes every
item, successes and failures alike; a falsy `img` is skipped (`continue`)
without advancing any separate success counter. -/
def gridCells (items : List Item) : List GridCell :=
  items.enum.filterMap fun p =>
    match p.2.img with
    | some im => if im = [] then none else some (gridCellAt p.1 p.2 im)
    | none => none

/-- Grid layout as the spec's sentence for claim C4 reads it: the `i`-th
SUCCESSFUL outcome (counting only successes) occupies row `i / C`,
column `i % C` — i.e. failures are first filtered out and the grid is
re-packed without gaps. Written from the spec's words, for comparison with
`gridCells` (which is written from the source). -/
def specGridCells (items : List Item) : List GridCell :=
  (items.filter fun it => imgTruthy it.img).enum.filterMap fun p =>
    match p.2.img with
    | some im => if im = [] then none else some (gridCellAt p.1 p.2 im)
    | none => none

/-- Count of `sum(1 for it in items if it.get('img'))` (line 173) and of
`charts_rendered` (line 337): items with a truthy image. -/
def renderedCount (items : List Item) : Nat :=
  items.countP fun it => imgTruthy it.img

/-- The catalog `data_rows` loop of `build_excel` (lines 215-224): one row per
item, in order; `m["MetricName"]` or a malformed dimension raises. -/
def catRows (cfg : Config) : List Item → Except String (List CatalogRow)
  | [] => Except.ok []
  | it :: rest =>
    match getKey "MetricName" it.metric.metricName with
    | Except.error e => Except.error e
    | Except.ok name =>
      match format_dims it.metric with
      | Except.error e => Except.error e
      | Except.ok dims =>
        match catRows cfg rest with
        | Except.error e => Except.error e
        | Except.ok rs =>
          Except.ok
            ({ metricName := name
               dims := dims
               stat := "Average"
               period := cfg.periodSeconds
               rendered := if imgTruthy it.img then "Yes" else "No" } :: rs)

/-- Everything input-dependent that `build_excel` writes into the workbook:
the Dashboard header and KPI tiles, the image grid, the Catalog table and the
Readme sheet. Byte identity of the serialized workbook is modelled by
equality of this structure. -/
structure Document where
  titleLine : String
  subLine : String
  chartsRenderedTile : String
  metricsScannedTile : String
  lookbackTile : String
  periodTile : String
  sectionHeader : String
  grid : List GridCell
  catalogHeader : List String
  catalogRows : List CatalogRow
  readme : List String
deriving DecidableEq

/-- Model of `build_excel(namespace, items, scanned_count)` (lines 130-263).
The two `iso_now()` calls inside it are modelled by the single `now`
argument. An exception raised while building the catalog rows propagates
(the workbook bytes are never returned). -/
def build_excel (cfg : Config) (now nsName : String) (items : List Item)
    (scanned : Nat) : Except String Document :=
  match catRows cfg items with
  | Except.error e => Except.error e
  | Except.ok rows =>
    Except.ok
      { titleLine := nsName ++ " — CloudWatch KPI Dashboard"
        subLine := "Region: " ++ cfg.region ++ " | Lookback: " ++ cfg.lookbackIso ++
          " | Period: " ++ toString cfg.periodSeconds ++ "s | Generated: " ++ now
        chartsRenderedTile := toString (renderedCount items)
        metricsScannedTile := toString scanned
        lookbackTile := cfg.lookbackIso
        periodTile := toString cfg.periodSeconds
        sectionHeader := "Charts"
        grid := gridCells items
        catalogHeader := ["Metric name", "Dimensions", "Stat", "Period (s)", "Rendered"]
        catalogRows := rows
        readme :=
          [ "About",
            "- Namespace: " ++ nsName,
            "- Region: " ++ cfg.region,
            "- Generated: " ++ now,
            "",
            "How to use",
            "1) Dashboard: KPI tiles and chart images (gridlines hidden for clean look).",
            "2) Catalog: sortable list of metrics scanned for this namespace.",
            "3) Charts rendered via CloudWatch GetMetricWidgetImage (Average).",
            "",
            "Tips",
            "- Reduce file size by lowering MAX_METRICS_PER_NS or IMG_SCALE.",
            "- Limit namespaces via env var NAMESPACES (comma-separated)." ] }

/-- The `assemble` step of the spec: sort the collected outcomes by title
(line 336) and lay them out into the Document (line 343). -/
def assemble (cfg : Config) (now nsName : String) (items : List Item)
    (scanned : Nat) : Except String Document :=
  build_excel cfg now nsName (sortItems items) scanned

/-- Estimated transport size of one attachment (line 283): base64 expansion
`ceil(n/3)*4` plus a fixed 2048-byte framing overhead. -/
def b64_size (n : Nat) : Nat := ((n + 2) / 3) * 4 + 2048

/-- The attachment cap in bytes (line 281): `int(MAX_EMAIL_MB * 1024 * 1024)`,
computed on the rational's numerator and denominator (integer division
truncates toward zero, exactly as Python's `int(...)` does). -/
def limit_bytes (cfg : Config) : Nat :=
  (cfg.maxEmailMb.num * 1048576 / (cfg.maxEmailMb.den : Int)).toNat

/-- The greedy attachment loop of `send_email` (lines 282-290) over
`(namespace, workbook byte length)` pairs in dict-insertion order: a member
is attached only when the running base64 total stays within the limit;
otherwise it is skipped with nothing but a console print. Attachments are
`(filename, byte length)` pairs. -/
def attachLoop (limit : Nat) (total : Nat) : List (String × Nat) → List (String × Nat)
  | [] => []
  | (nsName, len) :: rest =>
    let sz := b64_size len
    if total + sz > limit then attachLoop limit total rest
    else (safe nsName ++ ".xlsx", len) :: attachLoop limit (total + sz) rest

/-- The MIME message assembled by `send_email` (lines 269-296), as handed to
`SES.send_raw_email`. -/
structure EmailMsg where
  subject : String
  sender : String
  recipients : String
  bodyLines : List String
  attachments : List (String × Nat)
deriving DecidableEq

/-- Model of `send_email(ns_to_excel, summary_lines)`: the body is a fixed
header plus the caller's summary lines; attachments are added greedily when
`ATTACH_EXCEL` is set. -/
def send_email (cfg : Config) (entries : List (String × Nat))
    (summaryLines : List String) : EmailMsg :=
  { subject := "CloudWatch Metrics Excel Dashboards"
    sender := cfg.sesSender
    recipients := String.intercalate ", " cfg.sesRecipients
    bodyLines := ["CloudWatch Excel Dashboards have been generated.", ""] ++ summaryLines
    attachments := if cfg.attachExcel then attachLoop (limit_bytes cfg) 0 entries else [] }

/-- The page-accumulation loop of `list_metrics_in_namespace` (lines 83-87):
extend `out` page by page, breaking once `MAX_METRICS_PER_NS` is reached. -/
def collectPages (maxN : Nat) : List (List RawMetric) → List RawMetric → List RawMetric
  | [], out => out
  | p :: ps, out =>
    let out2 := out ++ p
    if maxN ≤ out2.length then out2 else collectPages maxN ps out2

/-- Model of `list_metrics_in_namespace` (lines 82-88): the paginated catalog
is the page list `pages`; the result is truncated to `maxN` entries. -/
def list_metrics_in_namespace (pages : List (List RawMetric)) (maxN : Nat) : List RawMetric :=
  (collectPages maxN pages []).take maxN

/-- Two-decimal formatting of a byte count as megabytes, for the summary line
`f"({info['size_mb']:.2f} MB)"` (line 362): exact rational rounding to
hundredths, ties to even (modelling the IEEE float formatting). -/
def mbHundredths (n : Nat) : Nat :=
  let num := n * 100
  let q := num / 1048576
  let r := num % 1048576
  if 1048576 < 2 * r then q + 1
  else if 2 * r < 1048576 then q
  else if q % 2 = 0 then q else q + 1

def pad2 (k : Nat) : String := if k < 10 then "0" ++ toString k else toString k

def mb2 (n : Nat) : String :=
  toString (mbHundredths n / 100) ++ "." ++ pad2 (mbHundredths n % 100)

/-- One value of the `ns_to_excel` dict (lines 349-354), with the workbook
bytes abstracted by their length. -/
structure NsInfo where
  ns : String
  doc : Document
  bytesLen : Nat
  s3key : String
  s3path : String
  count : Nat
deriving DecidableEq

/-- The external collaborators and configuration a run reads: the module
configuration, the byte length of a serialized workbook (`len(excel_bytes)`),
the timestamp folder (`iso_now()` at start, also used as the generation
stamp), the paginated metric catalog per namespace, the per-namespace
per-request render oracle (the value `fut.result()` delivers or the exception
it raises) and the per-namespace completion order of `as_completed`. -/
structure Env where
  cfg : Config
  sizer : Document → Nat
  now : String
  catalog : String → List (List RawMetric)
  renderRes : String → Nat → Except String (Option Img)
  order : String → List Nat

/-- The per-namespace body of the driver loop (lines 313-354): list metrics
(skipping an empty namespace), build all widgets (a `KeyError` propagates),
render concurrently and collect, sort by title, skip the namespace when no
chart rendered, build the workbook and record the S3 put. -/
def processGroup (env : Env) (nsName : String) : Except String (Option NsInfo) :=
  let metrics := list_metrics_in_namespace (env.catalog nsName) env.cfg.maxMetricsPerNs
  if metrics.isEmpty then Except.ok none
  else
    match buildWidgets env.cfg metrics with
    | Except.error e => Except.error e
    | Except.ok widgets =>
      let items := sortItems (collectRendered widgets metrics (env.renderRes nsName) (env.order nsName))
      if renderedCount items = 0 then Except.ok none
      else
        match build_excel env.cfg env.now nsName items metrics.length with
        | Except.error e => Except.error e
        | Except.ok doc =>
          let key := env.cfg.s3Folder ++ "/" ++ env.now ++ "/" ++ safe nsName ++ ".xlsx"
          Except.ok (some
            { ns := nsName
              doc := doc
              bytesLen := env.sizer doc
              s3key := key
              s3path := "s3://" ++ env.cfg.s3Bucket ++ "/" ++ key
              count := renderedCount items })

/-- The driver loop over namespaces, accumulating `ns_to_excel` in insertion
order; a raised exception aborts the run. -/
def processAll (env : Env) : List String → List NsInfo → Except String (List NsInfo)
  | [], acc => Except.ok acc
  | nsName :: rest, acc =>
    match processGroup env nsName with
    | Except.error e => Except.error e
    | Except.ok none => processAll env rest acc
    | Except.ok (some info) => processAll env rest (acc ++ [info])

/-- Order on namespace keys used by `sorted(...)` in lines 361 and 375. -/
def nsLe (a b : NsInfo) : Prop := a.ns ≤ b.ns

instance : DecidableRel nsLe := fun a b =>
  decidable_of_iff (a.ns.toList ≤ b.ns.toList) String.le_iff_toList_le.symm

/-- String order for `sorted(ns_to_excel.keys())` (line 375). -/
def strLe (a b : String) : Prop := a ≤ b

instance : DecidableRel strLe := fun a b =>
  decidable_of_iff (a.toList ≤ b.toList) String.le_iff_toList_le.symm

/-- The email summary lines (lines 360-362): one line per generated workbook,
iterated in key-sorted order. -/
def summaryLines (entries : List NsInfo) : List String :=
  (entries.insertionSort nsLe).map fun info =>
    "- " ++ info.ns ++ ": " ++ toString info.count ++ " charts → " ++ info.s3path ++
      " (" ++ mb2 info.bytesLen ++ " MB)"

/-- The summary record returned on the `email_sent` path (lines 370-380),
together with the S3 and SES side effects performed during the run
(`elapsed_sec` is wall-clock and not modelled). -/
structure RunSummary where
  region : String
  bucket : String
  s3Folder : String
  namespaces : List String
  perNsCounts : List (String × Nat)
  totalRendered : Nat
  attachExcel : Bool
  storedKeys : List String
  email : EmailMsg
deriving DecidableEq

/-- The three return shapes of `lambda_handler` (lines 307-308, 356-357, 370-380). -/
inductive RunResult where
  | noNamespaces : RunResult
  | noExcelFiles : RunResult
  | emailSent : RunSummary → RunResult
deriving DecidableEq

/-- Model of `lambda_handler` (lines 301-380). The namespace list is the
already-resolved `NAMESPACES if NAMESPACES else list_namespaces()` of
line 305 (catalog discovery is an external collaborator). -/
def lambda_handler (env : Env) (namespaces : List String) : Except String RunResult :=
  if namespaces.isEmpty then Except.ok RunResult.noNamespaces
  else
    match processAll env namespaces [] with
    | Except.error e => Except.error e
    | Except.ok entries =>
      if entries.isEmpty then Except.ok RunResult.noExcelFiles
      else
        let lines := summaryLines entries ++
          (if env.cfg.attachExcel then []
           else ["", "Attachments disabled (ATTACH_EXCEL=false); see S3 links above."])
        let msg := send_email env.cfg (entries.map fun i => (i.ns, i.bytesLen)) lines
        Except.ok (RunResult.emailSent
          { region := env.cfg.region
            bucket := env.cfg.s3Bucket
            s3Folder := env.cfg.s3Folder ++ "/" ++ env.now ++ "/"
            namespaces := (entries.map NsInfo.ns).insertionSort strLe
            perNsCounts := entries.map fun i => (i.ns, i.count)
            totalRendered := (entries.map NsInfo.count).sum
            attachExcel := env.cfg.attachExcel
            storedKeys := entries.map NsInfo.s3key
            email := msg })

/-- Projections of a run used to state concrete facts about its outcome. -/
def runCase : Except String RunResult → String
  | Except.ok RunResult.noNamespaces => "no_namespaces"
  | Except.ok RunResult.noExcelFiles => "no_excel_files_generated"
  | Except.ok (RunResult.emailSent _) => "email_sent"
  | Except.error _ => "error"

def runNamespaces : Except String RunResult → List String
  | Except.ok (RunResult.emailSent s) => s.namespaces
  | _ => []

def runPerNsCounts : Except String RunResult → List (String × Nat)
  | Except.ok (RunResult.emailSent s) => s.perNsCounts
  | _ => []

def runStoredKeys : Except String RunResult → List String
  | Except.ok (RunResult.emailSent s) => s.storedKeys
  | _ => []

/-! Concrete instances used to evaluate the definitions on explicit inputs. -/

/-- A configuration with all tunables at their source defaults (except a
metric cap of 2, to exercise truncation). -/
def cfgEx : Config :=
  { region := "us-east-1"
    sesSender := "sender@example.com"
    sesRecipients := ["ops@example.com"]
    s3Bucket := "bkt"
    lookbackIso := "-PT24H"
    periodSeconds := 300
    maxMetricsPerNs := 2
    imgScale := 35 / 100
    attachExcel := true
    maxEmailMb := 7
    concurrency := 8
    widgetWidth := 1067
    widgetHeight := 300
    s3Folder := "cloudwatch/excel"
    renderSleepSec := 0 }

/-- Same configuration with a cap too large to exclude anything. -/
def cfgBig : Config := { cfgEx with maxEmailMb := 1000 }

def sizerEx : Document → Nat := fun _ => 1000

def emptyDoc : Document := ⟨"", "", "", "", "", "", "", [], [], [], []⟩

/-- The Document built for an empty item list (scanned count 0). -/
def doc0 : Document :=
  match build_excel cfgEx "T" "ns0" [] 0 with
  | Except.ok d => d
  | Except.error _ => emptyDoc

def mA1 : RawMetric := ⟨some "n", some "A", []⟩
def mB1 : RawMetric := ⟨some "n", some "B", []⟩

def wA : Widget :=
  ⟨"A", "timeSeries", false, "Average", 300, [["n", "A"]], "-PT24H", "PT0M", 1067, 300, 0⟩
def wB : Widget :=
  ⟨"B", "timeSeries", false, "Average", 300, [["n", "B"]], "-PT24H", "PT0M", 1067, 300, 0⟩

/-- A render-result oracle where request 0 raises and request 1 succeeds. -/
def resEx : Nat → Except String (Option Img) :=
  fun i => if i = 0 then Except.error "boom" else Except.ok (some [9])

/-- Two successful outcomes sharing the title "A" but with different images,
in the two possible presentation orders. -/
def itP1 : Item := ⟨"A", some [1], mA1⟩
def itP2 : Item := ⟨"A", some [2], mA1⟩
def itemsP : List Item := [itP1, itP2]
def itemsQ : List Item := [itP2, itP1]

/-- A failed outcome followed by a successful one (already title-sorted). -/
def itFail : Item := ⟨"A", none, mA1⟩
def itSucc : Item := ⟨"B", some [5], mB1⟩
def items4 : List Item := [itFail, itSucc]

/-- Attachment members whose estimated transport sizes are exactly 4 MB and
5 MB: `b64_size 3144190 = 4194304` and `b64_size 3930622 = 5242880`. -/
def entries75 : List (String × Nat) := [("A", 3144190), ("B", 3930622)]

/-- Members keyed in descending order, to exercise iteration order. -/
def entriesBA : List (String × Nat) := [("b", 10), ("a", 10)]

def linesEx : List String := ["- A: 1 charts", "- B: 1 charts"]

/-- A malformed metric with no `MetricName`, one with a dimension missing its
`Name`, and a well-formed one. -/
def mNoName : RawMetric := ⟨some "ns1", none, []⟩
def mBadDim : RawMetric := ⟨some "ns1", some "M", [⟨none, some "v"⟩]⟩
def mGood : RawMetric := ⟨some "ns1", some "Good", []⟩

/-- Catalog in which namespace ns1 contains a well-formed metric followed by a
malformed one. -/
def catBad : String → List (List RawMetric) := fun _ => [[mGood, mNoName]]

def renderOk : String → Nat → Except String (Option Img) := fun _ _ => Except.ok (some [1])
def orderTwo : String → List Nat := fun _ => [0, 1]

def envBad : Env := ⟨cfgEx, sizerEx, "T", catBad, renderOk, orderTwo⟩

/-- A run in which every render of namespace aaa fails (retries exhausted)
while namespace bbb renders fine. -/
def mA9 : RawMetric := ⟨some "aaa", some "A", []⟩
def mB9 : RawMetric := ⟨some "bbb", some "B", []⟩
def cat9 : String → List (List RawMetric) :=
  fun nsName => if nsName = "aaa" then [[mA9]] else [[mB9]]
def render9 : String → Nat → Except String (Option Img) :=
  fun nsName _ => if nsName = "aaa" then Except.ok none else Except.ok (some [7])
def orderOne : String → List Nat := fun _ => [0]
def env9 : Env := ⟨cfgEx, sizerEx, "T", cat9, render9, orderOne⟩
def run9 : Except String RunResult := lambda_handler env9 ["aaa", "bbb"]

/-- A namespace whose catalog holds three metrics across two pages, against
the cap of 2. -/
def m101 : RawMetric := ⟨some "ns", some "M1", []⟩
def m102 : RawMetric := ⟨some "ns", some "M2", []⟩
def m103 : RawMetric := ⟨some "ns", some "M3", []⟩
def cat10 : String → List (List RawMetric) := fun _ => [[m101, m102], [m103]]
def env10 : Env := ⟨cfgEx, sizerEx, "T", cat10, renderOk, orderTwo⟩
def out10 : Except String (Option NsInfo) := processGroup env10 "ns"

/-- The group record produced for that namespace. -/
def info10 : NsInfo :=
  match out10 with
  | Except.ok (some i) => i
  | _ => ⟨"", emptyDoc, 0, "", "", 0⟩

/-! Helper lemmas. -/

theorem length_filterMap_of_isSome {α β : Type} (f : α → Option β) :
    ∀ l : List α, (∀ a ∈ l, (f a).isSome) → (l.filterMap f).length = l.length := by
  intro l
  induction l with
  | nil => intro _; rfl
  | cons a t ih =>
    intro h
    have ha := h a (List.mem_cons_self a t)
    obtain ⟨b, hb⟩ := Option.isSome_iff_exists.mp ha
    simp [List.filterMap_cons, hb, ih (fun x hx => h x (List.mem_cons_of_mem a hx))]

/-- C1: for every request list and every mix of per-request successes,
failures and raised exceptions, the collection loop produces exactly one
outcome per request: the `rendered_items` list has the length of the request
list, and the outcome of request `i` (with a null image when the render
raised or exhausted its retries) is present in it. -/
theorem C1_outcome_per_request (widgets : List Widget) (metrics : List RawMetric)
    (res : Nat → Except String (Option Img)) (order : List Nat)
    (hperm : order.Perm (List.range widgets.length))
    (hlen : metrics.length = widgets.length) :
    (collectRendered widgets metrics res order).length = widgets.length ∧
    ∀ i w m, widgets[i]? = some w → metrics[i]? = some m →
      (⟨w.title, resImg (res i), m⟩ : Item) ∈ collectRendered widgets metrics res order := by
  constructor
  · have hfst : (collectRendered widgets metrics res order).length = order.length := by
      simp only [collectRendered]
      apply length_filterMap_of_isSome
      intro i hi
      have hrange : i ∈ List.range widgets.length := hperm.mem_iff.mp hi
      have hi' : i < widgets.length := List.mem_range.mp hrange
      have hw : widgets[i]? = some widgets[i] := List.getElem?_eq_getElem hi'
      have hm : metrics[i]? = some metrics[i] := List.getElem?_eq_getElem (by omega)
      simp only [hw, hm]
      rfl
    calc (collectRendered widgets metrics res order).length = order.length := hfst
      _ = (List.range widgets.length).length := hperm.length_eq
      _ = widgets.length := List.length_range widgets.length
  · intro i w m hw hm
    have hi : i < widgets.length := by
      by_contra hcon
      rw [List.getElem?_eq_none (Nat.le_of_not_lt hcon)] at hw
      cases hw
    have hio : i ∈ order := hperm.mem_iff.mpr (List.mem_range.mpr hi)
    simp only [collectRendered]
    exact List.mem_filterMap.mpr ⟨i, hio, by rw [hw, hm]⟩

/-- Witness for C1 at a concrete two-request batch where request 0 raises. -/
theorem C1_witness :
    (collectRendered [wA, wB] [mA1, mB1] resEx [1, 0]).length = 2 ∧
    (⟨"A", none, mA1⟩ : Item) ∈ collectRendered [wA, wB] [mA1, mB1] resEx [1, 0] := by
  have h := C1_outcome_per_request [wA, wB] [mA1, mB1] resEx [1, 0] (by decide) (by decide)
  exact ⟨h.1, h.2 0 wA mA1 (by decide) (by decide)⟩

theorem renderAttempt_calls_le (f : Nat → Except String Img) :
    ∀ (r a : Nat), (renderAttempt f a r).calls ≤ r := by
  intro r
  induction r with
  | zero => intro a; exact Nat.le_refl 0
  | succ n ih =>
    intro a
    cases hf : f a with
    | ok img => simp [renderAttempt, hf]
    | error e =>
      have := ih (a + 1)
      simp only [renderAttempt, hf]
      omega

theorem renderAttempt_backoffs_get (f : Nat → Except String Img) :
    ∀ (r a k : Nat), k < (renderAttempt f a r).backoffs.length →
      (renderAttempt f a r).backoffs[k]? = some (backoffBase * ((a : ℚ) + k)) := by
  intro r
  induction r with
  | zero => intro a k h; simp [renderAttempt] at h
  | succ n ih =>
    intro a k h
    cases hf : f a with
    | ok img => simp [renderAttempt, hf] at h
    | error e =>
      simp only [renderAttempt, hf] at h ⊢
      cases k with
      | zero =>
        simp
      | succ k' =>
        simp only [List.getElem?_cons_succ]
        have hlen : k' < (renderAttempt f (a + 1) n).backoffs.length := by
          simp at h
          omega
        rw [ih (a + 1) k' hlen]
        congr 1
        push_cast
        ring

theorem renderAttempt_result_none (f : Nat → Except String Img) :
    ∀ (r a : Nat), (∀ n, a ≤ n → n < a + r → ∃ e, f n = Except.error e) →
      (renderAttempt f a r).result = none := by
  intro r
  induction r with
  | zero => intro a _; rfl
  | succ m ih =>
    intro a h
    obtain ⟨e, he⟩ := h a (Nat.le_refl a) (by omega)
    simp only [renderAttempt, he]
    exact ih (a + 1) (fun n h1 h2 => h n (by omega) (by omega))

/-- C2: per request the renderer makes at most 3 attempts; the wait recorded
after failed attempt `n` (0-based index `k`, so `n = k+1`) is
`backoffBase * n` with base 0.3 seconds; and when every attempt fails the
call resolves to `none` (a failure outcome) rather than raising. -/
theorem C2_retry_policy (attemptRes : Nat → Except String Img) :
    (render_widget_image attemptRes 3).calls ≤ 3 ∧
    (∀ k, k < (render_widget_image attemptRes 3).backoffs.length →
      (render_widget_image attemptRes 3).backoffs[k]? = some (backoffBase * ((k : ℚ) + 1))) ∧
    ((∀ n, 1 ≤ n → n ≤ 3 → ∃ e, attemptRes n = Except.error e) →
      (render_widget_image attemptRes 3).result = none) := by
  refine ⟨renderAttempt_calls_le attemptRes 3 1, fun k hk => ?_, fun h => ?_⟩
  · have hh := renderAttempt_backoffs_get attemptRes 3 1 k hk
    rw [render_widget_image] at *
    rw [hh]
    congr 1
    ring
  · exact renderAttempt_result_none attemptRes 3 1 (fun n h1 h2 => h n h1 (by omega))

/-- Witness for C2 on an oracle that always fails. -/
theorem C2_witness :
    (render_widget_image (fun _ => Except.error "x") 3).calls ≤ 3 ∧
    (render_widget_image (fun _ => Except.error "x") 3).backoffs[1]? = some (backoffBase * 2) ∧
    (render_widget_image (fun _ => Except.error "x") 3).result = none := by
  have h := C2_retry_policy (fun _ => Except.error "x")
  refine ⟨h.1, ?_, h.2.2 (fun n _ _ => ⟨"x", rfl⟩)⟩
  have hh := h.2.1 1 (by decide)
  rw [hh]
  norm_num

theorem sortedPermNodupEq : ∀ {l₁ l₂ : List Item}, l₁.Perm l₂ → l₁.Sorted titleLe →
    l₂.Sorted titleLe → (l₁.map Item.title).Nodup → l₁ = l₂ := by
  intro l₁
  induction l₁ with
  | nil =>
    intro l₂ hp _ _ _
    exact (hp.symm.eq_nil).symm
  | cons a t ih =>
    intro l₂ hp h₁ h₂ hnd
    cases l₂ with
    | nil => exact absurd hp.eq_nil (by simp)
    | cons b t₂ =>
      have hab : a = b := by
        by_contra hne
        have ha2 : a ∈ b :: t₂ := hp.mem_iff.mp (List.mem_cons_self a t)
        have hb1 : b ∈ a :: t := hp.symm.mem_iff.mp (List.mem_cons_self b t₂)
        have ha : a ∈ t₂ := by
          rcases List.mem_cons.mp ha2 with h | h
          · exact absurd h hne
          · exact h
        have hb : b ∈ t := by
          rcases List.mem_cons.mp hb1 with h | h
          · exact absurd h.symm hne
          · exact h
        have hle1 : titleLe a b := (List.sorted_cons.mp h₁).1 b hb
        have hle2 : titleLe b a := (List.sorted_cons.mp h₂).1 a ha
        have heq : a.title = b.title := le_antisymm hle1 hle2
        have hnotin : a.title ∉ t.map Item.title :=
          (List.nodup_cons.mp (by simpa using hnd)).1
        have hmem : b.title ∈ t.map Item.title := List.mem_map_of_mem Item.title hb
        rw [heq] at hnotin
        exact hnotin hmem
      subst hab
      have hp' : t.Perm t₂ := hp.cons_inv
      have hrec := ih hp' (List.sorted_cons.mp h₁).2 (List.sorted_cons.mp h₂).2
        (by simpa using (List.nodup_cons.mp (by simpa using hnd)).2)
      rw [hrec]

/-- C3 (amended): when the outcome titles are pairwise distinct, `assemble`
is a function of the outcome multiset alone — any two presentation orders of
the same outcomes yield equal Documents (for a fixed generation timestamp
and configuration). -/
theorem C3_sort_determinism (cfg : Config) (now nsName : String) (scanned : Nat)
    (l₁ l₂ : List Item) (hp : l₁.Perm l₂) (hnd : (l₁.map Item.title).Nodup) :
    assemble cfg now nsName l₁ scanned = assemble cfg now nsName l₂ scanned := by
  have hs : sortItems l₁ = sortItems l₂ := by
    apply sortedPermNodupEq
    · exact (List.perm_insertionSort titleLe l₁).trans
        (hp.trans (List.perm_insertionSort titleLe l₂).symm)
    · exact List.sorted_insertionSort titleLe l₁
    · exact List.sorted_insertionSort titleLe l₂
    · exact (((List.perm_insertionSort titleLe l₁).map Item.title).symm).nodup hnd
  simp only [assemble, hs]

/-- Witness for C3 (amended) on two distinct-title outcomes in both orders. -/
theorem C3_witness :
    assemble cfgEx "T" "ns" [itFail, itSucc] 2 = assemble cfgEx "T" "ns" [itSucc, itFail] 2 :=
  C3_sort_determinism cfgEx "T" "ns" 2 [itFail, itSucc] [itSucc, itFail] (by decide) (by decide)

/-- Counterexample to C3 as stated: two successful outcomes sharing a title,
presented in the two possible orders, produce different Documents — the
stable sort keeps equal-title items in presentation order, so completion
order leaks into the output. -/
theorem C3_counterexample :
    itemsP.Perm itemsQ ∧
    assemble cfgEx "T" "ns" itemsP 2 ≠ assemble cfgEx "T" "ns" itemsQ 2 := by
  constructor
  · decide
  · decide

theorem mem_enumFrom_of_getElem? :
    ∀ (l : List Item) (k idx : Nat) (it : Item), l[idx]? = some it →
      (k + idx, it) ∈ List.enumFrom k l := by
  intro l
  induction l with
  | nil => intro k idx it h; simp at h
  | cons x t ih =>
    intro k idx it h
    cases idx with
    | zero =>
      simp at h
      subst h
      simp [List.enumFrom]
    | succ j =>
      have hmem := ih (k + 1) j it (by simpa using h)
      have heq : k + (j + 1) = (k + 1) + j := by omega
      rw [heq]
      exact List.mem_cons_of_mem _ hmem

theorem gridCells_enumFrom_length :
    ∀ (l : List Item) (k : Nat),
      ((List.enumFrom k l).filterMap fun p =>
        match p.2.img with
        | some im => if im = [] then none else some (gridCellAt p.1 p.2 im)
        | none => none).length = l.countP fun it => imgTruthy it.img := by
  intro l
  induction l with
  | nil => intro k; rfl
  | cons x t ih =>
    intro k
    simp only [List.enumFrom, List.filterMap_cons]
    cases hx : x.img with
    | none => simp [List.countP_cons, imgTruthy, hx, ih (k + 1)]
    | some im =>
      by_cases him : im = []
      · simp [List.countP_cons, imgTruthy, hx, him, ih (k + 1)]
      · simp [List.countP_cons, imgTruthy, hx, him, ih (k + 1)]

theorem gridCells_length (items : List Item) :
    (gridCells items).length = renderedCount items := by
  have h := gridCells_enumFrom_length items 0
  simpa [gridCells, renderedCount, List.enum] using h

/-- C4 (amended): the outcome at OVERALL sorted index `idx` (counting
successes and failures alike), when it carries a non-empty image, occupies
the grid anchor `row = 13 + (idx/3)*22`, `col = 1 + (idx%3)*2`; failed
outcomes occupy no cell (the grid holds exactly `renderedCount` cells), but
their index is not reused, so failures leave gaps in the grid. -/
theorem C4_grid_placement :
    (∀ (items : List Item) (idx : Nat) (it : Item) (im : Img),
      items[idx]? = some it → it.img = some im → im ≠ [] →
      gridCellAt idx it im ∈ gridCells items) ∧
    (∀ items : List Item, (gridCells items).length = renderedCount items) := by
  constructor
  · intro items idx it im hidx him hne
    have hmem : (idx, it) ∈ items.enum := by
      simpa using mem_enumFrom_of_getElem? items 0 idx it hidx
    simp only [gridCells]
    exact List.mem_filterMap.mpr ⟨(idx, it), hmem, by simp [him, hne]⟩
  · exact gridCells_length

/-- Witness for C4 (amended) at a failure followed by a success. -/
theorem C4_witness :
    gridCellAt 1 itSucc [5] ∈ gridCells items4 ∧
    (gridCells items4).length = renderedCount items4 :=
  ⟨C4_grid_placement.1 items4 1 itSucc [5] (by decide) (by decide) (by decide),
   C4_grid_placement.2 items4⟩

/-- Counterexample to C4 as stated: with a failed outcome at sorted index 0
and a successful one at index 1, the success lands at column cell 3
(`1 + (1%3)*2`), not at the column cell 1 that the successes-only index 0
would give; the success-packed grid of the claim (`specGridCells`) differs
from the grid the code builds. -/
theorem C4_counterexample :
    (gridCells items4).map (fun c => (c.row, c.col)) = [(13, 3)] ∧
    (specGridCells items4).map (fun c => (c.row, c.col)) = [(13, 1)] ∧
    gridCells items4 ≠ specGridCells items4 := by
  refine ⟨?_, ?_, ?_⟩ <;> decide

theorem catRows_ok_props (cfg : Config) :
    ∀ (items : List Item) (rows : List CatalogRow), catRows cfg items = Except.ok rows →
      rows.length = items.length ∧
      ∀ r ∈ rows, r.rendered = "Yes" ∨ r.rendered = "No" := by
  intro items
  induction items with
  | nil =>
    intro rows h
    simp only [catRows] at h
    cases h
    simp
  | cons it t ih =>
    intro rows h
    simp only [catRows] at h
    cases h1 : getKey "MetricName" it.metric.metricName with
    | error e => rw [h1] at h; cases h
    | ok name =>
      rw [h1] at h
      cases h2 : format_dims it.metric with
      | error e => rw [h2] at h; cases h
      | ok dims =>
        rw [h2] at h
        cases h3 : catRows cfg t with
        | error e => rw [h3] at h; cases h
        | ok rs =>
          rw [h3] at h
          cases h
          obtain ⟨hl, hr⟩ := ih rs h3
          constructor
          · simp [hl]
          · intro r hr'
            rcases List.mem_cons.mp hr' with h' | h'
            · subst h'
              by_cases hi : imgTruthy it.img
              · left; simp [hi]
              · right; simp [hi]
            · exact hr r h'

theorem build_excel_ok (cfg : Config) (now nsName : String) (items : List Item)
    (scanned : Nat) (doc : Document)
    (h : build_excel cfg now nsName items scanned = Except.ok doc) :
    (∃ rows, catRows cfg items = Except.ok rows ∧ doc.catalogRows = rows) ∧
    doc.grid = gridCells items ∧
    doc.metricsScannedTile = toString scanned ∧
    doc.chartsRenderedTile = toString (renderedCount items) := by
  simp only [build_excel] at h
  cases hr : catRows cfg items with
  | error e => rw [hr] at h; cases h
  | ok rows =>
    rw [hr] at h
    cases h
    exact ⟨⟨rows, rfl, rfl⟩, rfl, rfl, rfl⟩

/-- C5: a Document built from `items` with `scanned = items.length` (the
driver always passes `scanned_count = len(metrics)` and one item per metric)
has exactly one catalog row per scanned metric, each row carrying a
Yes/No rendered flag, and exactly `renderedCount items` grid cells. -/
theorem C5_catalog_invariant (cfg : Config) (now nsName : String) (items : List Item)
    (scanned : Nat) (doc : Document)
    (hok : build_excel cfg now nsName items scanned = Except.ok doc)
    (hlen : items.length = scanned) :
    doc.catalogRows.length = scanned ∧
    doc.grid.length = renderedCount items ∧
    ∀ r ∈ doc.catalogRows, r.rendered = "Yes" ∨ r.rendered = "No" := by
  obtain ⟨⟨rows, hr, hdr⟩, hg, _, _⟩ := build_excel_ok cfg now nsName items scanned doc hok
  obtain ⟨hl, hflags⟩ := catRows_ok_props cfg items rows hr
  refine ⟨?_, ?_, ?_⟩
  · rw [hdr, hl, hlen]
  · rw [hg]; exact gridCells_length items
  · rw [hdr]; exact hflags

/-- Witness for C5 at the empty outcome list with scanned count 0. -/
theorem C5_witness :
    doc0.catalogRows.length = 0 ∧
    doc0.grid.length = renderedCount [] ∧
    ∀ r ∈ doc0.catalogRows, r.rendered = "Yes" ∨ r.rendered = "No" :=
  C5_catalog_invariant cfgEx "T" "ns0" [] 0 doc0 (by decide) rfl

theorem attachLoop_total_le (limit : Nat) :
    ∀ (l : List (String × Nat)) (total : Nat), total ≤ limit →
      total + ((attachLoop limit total l).map fun p => b64_size p.2).sum ≤ limit := by
  intro l
  induction l with
  | nil => intro total h; simpa [attachLoop] using h
  | cons e t ih =>
    intro total h
    obtain ⟨nsName, len⟩ := e
    by_cases hc : total + b64_size len > limit
    · have hunfold : attachLoop limit total ((nsName, len) :: t) = attachLoop limit total t := by
        simp only [attachLoop]
        rw [if_pos (by omega)]
      rw [hunfold]
      exact ih total h
    · push_neg at hc
      have hrec := ih (total + b64_size len) hc
      have hunfold : attachLoop limit total ((nsName, len) :: t) =
          (safe nsName ++ ".xlsx", len) :: attachLoop limit (total + b64_size len) t := by
        simp only [attachLoop]
        rw [if_neg (by omega)]
      rw [hunfold, List.map_cons, List.sum_cons]
      show total + (b64_size len +
        ((attachLoop limit (total + b64_size len) t).map fun p => b64_size p.2).sum) ≤ limit
      omega

/-- C6: the attachment budgeter admits a member only while the running total
of estimated transport sizes (base64 expansion `ceil(n/3)*4` plus a fixed
2048-byte framing overhead, never the raw length) stays within the cap:
every admitted member's estimate is at most the cap, every prefix of the
admitted sequence fits the cap, and the total admitted estimate fits the
cap. -/
theorem C6_pack_budget (cfg : Config) (entries : List (String × Nat)) (lines : List String) :
    (∀ p ∈ (send_email cfg entries lines).attachments, b64_size p.2 ≤ limit_bytes cfg) ∧
    (((send_email cfg entries lines).attachments.map fun p => b64_size p.2).sum ≤ limit_bytes cfg) ∧
    (∀ k, (((send_email cfg entries lines).attachments.map fun p => b64_size p.2).take k).sum ≤
      limit_bytes cfg) := by
  have hsum : ((send_email cfg entries lines).attachments.map fun p => b64_size p.2).sum ≤
      limit_bytes cfg := by
    simp only [send_email]
    by_cases hatt : cfg.attachExcel
    · simp only [if_pos hatt]
      have hh := attachLoop_total_le (limit_bytes cfg) entries 0 (Nat.zero_le _)
      omega
    · simp [if_neg hatt]
  refine ⟨?_, hsum, ?_⟩
  · intro p hp
    have hmem : b64_size p.2 ∈ ((send_email cfg entries lines).attachments.map
        fun p => b64_size p.2) := List.mem_map_of_mem _ hp
    exact le_trans (List.single_le_sum (fun x _ => Nat.zero_le x) _ hmem) hsum
  · intro k
    have hsplit := List.sum_take_add_sum_drop
      ((send_email cfg entries lines).attachments.map fun p => b64_size p.2) k
    omega

/-- Witness for C6 at a one-member packing that fits the default cap. -/
theorem C6_witness :
    b64_size 10 ≤ limit_bytes cfgEx ∧
    ((send_email cfgEx [("a", 10)] []).attachments.map fun p => b64_size p.2).sum ≤
      limit_bytes cfgEx :=
  ⟨(C6_pack_budget cfgEx [("a", 10)] []).1 ("a.xlsx", 10) (by decide),
   (C6_pack_budget cfgEx [("a", 10)] []).2.1⟩

theorem attachLoop_sublist (limit : Nat) :
    ∀ (l : List (String × Nat)) (total : Nat),
      List.Sublist ((attachLoop limit total l).map Prod.fst)
        (l.map fun e => safe e.1 ++ ".xlsx") := by
  intro l
  induction l with
  | nil => intro total; simp [attachLoop]
  | cons e t ih =>
    intro total
    obtain ⟨nsName, len⟩ := e
    by_cases hc : total + b64_size len > limit
    · simp only [attachLoop, if_pos hc, List.map_cons]
      exact List.Sublist.cons _ (ih total)
    · simp only [attachLoop, if_neg hc, List.map_cons]
      exact List.Sublist.cons₂ _ (ih (total + b64_size len))

/-- C7 (amended): packing iterates members in the driver's dict-insertion
order (key-ascending only when the namespace list itself was sorted), and
admitted attachments preserve that order (a sublist of the member list).
For two members of estimated sizes exactly 4MB and 5MB under the 7MB cap,
exactly the first-iterated member is admitted. A member omitted for the cap
is only logged to the console: the body handed to the delivery channel is
exactly the fixed header plus the caller-supplied summary lines, with no
exclusion record. -/
theorem C7_pack_order_and_summary :
    (∀ lines, ((send_email cfgEx entries75 lines).attachments.map Prod.fst) = ["A.xlsx"]) ∧
    (∀ (cfg : Config) (entries : List (String × Nat)) (lines : List String),
      (send_email cfg entries lines).bodyLines =
        ["CloudWatch Excel Dashboards have been generated.", ""] ++ lines) ∧
    (∀ (cfg : Config) (entries : List (String × Nat)) (lines : List String),
      List.Sublist ((send_email cfg entries lines).attachments.map Prod.fst)
        (entries.map fun e => safe e.1 ++ ".xlsx")) := by
  refine ⟨fun lines => ?_, fun cfg entries lines => rfl, fun cfg entries lines => ?_⟩
  · simp only [send_email]
    decide
  · simp only [send_email]
    by_cases hatt : cfg.attachExcel
    · simp only [if_pos hatt]
      exact attachLoop_sublist (limit_bytes cfg) entries 0
    · simp only [if_neg hatt]
      exact List.nil_sublist _

/-- Counterexample to C7 as stated: under the 7MB cap the 5MB member "B" is
omitted from the attachments, yet the body handed to the delivery channel is
identical to the body of the same call under a cap that admits everything —
the exclusion is recorded nowhere the recipients can see. Moreover packing
follows insertion order, not key-ascending order. -/
theorem C7_counterexample :
    ((send_email cfgEx entries75 linesEx).attachments.map Prod.fst = ["A.xlsx"]) ∧
    ((send_email cfgBig entries75 linesEx).attachments.map Prod.fst = ["A.xlsx", "B.xlsx"]) ∧
    (send_email cfgEx entries75 linesEx).bodyLines =
      (send_email cfgBig entries75 linesEx).bodyLines ∧
    ((send_email cfgBig entriesBA linesEx).attachments.map Prod.fst = ["b.xlsx", "a.xlsx"]) := by
  refine ⟨?_, ?_, ?_, ?_⟩ <;> decide

theorem dimPairs_error_of_malformed :
    ∀ (ds : List RawDim) (d : RawDim), d ∈ ds → d.name = none ∨ d.value = none →
      ∃ e, dimPairs ds = Except.error e := by
  intro ds
  induction ds with
  | nil => intro d h; simp at h
  | cons x t ih =>
    intro d hd hmal
    rcases List.mem_cons.mp hd with h | h
    · subst h
      rcases hmal with h' | h'
      · exact ⟨"KeyError: Name", by simp [dimPairs, h', getKey]⟩
      · cases hx : d.name with
        | none => exact ⟨"KeyError: Name", by simp [dimPairs, hx, getKey]⟩
        | some n => exact ⟨"KeyError: Value", by simp [dimPairs, hx, h', getKey]⟩
    · cases hx : x.name with
      | none => exact ⟨"KeyError: Name", by simp [dimPairs, hx, getKey]⟩
      | some n =>
        cases hv : x.value with
        | none => exact ⟨"KeyError: Value", by simp [dimPairs, hx, hv, getKey]⟩
        | some v =>
          obtain ⟨e, he⟩ := ih d h hmal
          exact ⟨e, by simp [dimPairs, hx, hv, getKey, he]⟩

theorem build_widget_error_noname (cfg : Config) (m : RawMetric)
    (h : m.metricName = none) : ∃ e, build_widget cfg m = Except.error e := by
  cases hns : m.ns with
  | none => exact ⟨"KeyError: Namespace", by simp [build_widget, hns, getKey]⟩
  | some v => exact ⟨"KeyError: MetricName", by simp [build_widget, hns, h, getKey]⟩

theorem build_widget_error_baddim (cfg : Config) (m : RawMetric) (d : RawDim)
    (hd : d ∈ m.dimensions) (hmal : d.name = none ∨ d.value = none) :
    ∃ e, build_widget cfg m = Except.error e := by
  cases hns : m.ns with
  | none => exact ⟨"KeyError: Namespace", by simp [build_widget, hns, getKey]⟩
  | some v =>
    cases hmn : m.metricName with
    | none => exact ⟨"KeyError: MetricName", by simp [build_widget, hns, hmn, getKey]⟩
    | some n =>
      obtain ⟨e, he⟩ := dimPairs_error_of_malformed m.dimensions d hd hmal
      exact ⟨e, by simp [build_widget, hns, hmn, getKey, he]⟩

theorem buildWidgets_error (cfg : Config) :
    ∀ (ms : List RawMetric) (m : RawMetric), m ∈ ms → m.metricName = none →
      ∃ e, buildWidgets cfg ms = Except.error e := by
  intro ms
  induction ms with
  | nil => intro m h; simp at h
  | cons x t ih =>
    intro m hm hnone
    rcases List.mem_cons.mp hm with h | h
    · subst h
      obtain ⟨e, he⟩ := build_widget_error_noname cfg m hnone
      exact ⟨e, by simp [buildWidgets, he]⟩
    · cases hx : build_widget cfg x with
      | error e => exact ⟨e, by simp [buildWidgets, hx]⟩
      | ok w =>
        obtain ⟨e, he⟩ := ih m h hnone
        exact ⟨e, by simp [buildWidgets, hx, he]⟩

theorem processAll_error (env : Env) :
    ∀ (ls : List String) (acc : List NsInfo) (nsName e : String),
      nsName ∈ ls → processGroup env nsName = Except.error e →
      ∃ e2, processAll env ls acc = Except.error e2 := by
  intro ls
  induction ls with
  | nil => intro acc nsName e h; simp at h
  | cons x t ih =>
    intro acc nsName e hm hpe
    rcases List.mem_cons.mp hm with h | h
    · subst h
      exact ⟨e, by simp [processAll, hpe]⟩
    · cases hx : processGroup env x with
      | error e' => exact ⟨e', by simp [processAll, hx]⟩
      | ok o =>
        cases o with
        | none =>
          obtain ⟨e2, he2⟩ := ih acc nsName e h hpe
          exact ⟨e2, by simp [processAll, hx, he2]⟩
        | some info =>
          obtain ⟨e2, he2⟩ := ih (acc ++ [info]) nsName e h hpe
          exact ⟨e2, by simp [processAll, hx, he2]⟩

/-- C8 (amended): identity resolution is NOT defensive. A raw metric with no
name makes `build_widget` raise a `KeyError`; a dimension pair missing its
key or value likewise makes `build_widget` raise (the pair is not dropped,
the metric is not resolved); and a group whose processing raises aborts the
whole run with that exception rather than being skipped. -/
theorem C8_malformed_aborts :
    (∀ (cfg : Config) (m : RawMetric), m.metricName = none →
      ∃ e, build_widget cfg m = Except.error e) ∧
    (∀ (cfg : Config) (m : RawMetric) (d : RawDim), d ∈ m.dimensions →
      d.name = none ∨ d.value = none → ∃ e, build_widget cfg m = Except.error e) ∧
    (∀ (env : Env) (namespaces : List String) (nsName e : String),
      nsName ∈ namespaces → processGroup env nsName = Except.error e →
      ∃ e2, lambda_handler env namespaces = Except.error e2) := by
  refine ⟨build_widget_error_noname, build_widget_error_baddim, ?_⟩
  intro env namespaces nsName e hm hpe
  obtain ⟨e2, he2⟩ := processAll_error env namespaces [] nsName e hm hpe
  have hne : namespaces.isEmpty = false := by
    cases namespaces with
    | nil => simp at hm
    | cons a b => rfl
  exact ⟨e2, by simp [lambda_handler, hne, he2]⟩

/-- Witness for C8 (amended) at the concrete malformed metrics. -/
theorem C8_witness :
    (∃ e, build_widget cfgEx mNoName = Except.error e) ∧
    (∃ e, build_widget cfgEx mBadDim = Except.error e) ∧
    (∃ e2, lambda_handler envBad ["ns1"] = Except.error e2) :=
  ⟨C8_malformed_aborts.1 cfgEx mNoName rfl,
   C8_malformed_aborts.2.1 cfgEx mBadDim ⟨none, some "v"⟩ (by decide) (Or.inl rfl),
   C8_malformed_aborts.2.2 envBad ["ns1"] "ns1" "KeyError: MetricName" (by decide) (by decide)⟩

/-- Counterexample to C8 as stated: the metric with no name is not skipped
with a `MalformedMetric` signal — `build_widget` raises `KeyError`; the
metric with a malformed dimension pair is not resolved with the pair
dropped — it raises too; and a group containing one malformed metric
alongside a healthy one aborts the entire run with the uncaught exception. -/
theorem C8_counterexample :
    build_widget cfgEx mNoName = Except.error "KeyError: MetricName" ∧
    build_widget cfgEx mBadDim = Except.error "KeyError: Name" ∧
    lambda_handler envBad ["ns1"] = Except.error "KeyError: MetricName" := by
  refine ⟨?_, ?_, ?_⟩ <;> decide

theorem collectRendered_all_fail (widgets : List Widget) (metrics : List RawMetric)
    (res : Nat → Except String (Option Img)) (order : List Nat)
    (hfail : ∀ i, imgTruthy (resImg (res i)) = false) :
    renderedCount (sortItems (collectRendered widgets metrics res order)) = 0 := by
  have h1 : renderedCount (collectRendered widgets metrics res order) = 0 := by
    apply List.countP_eq_zero.mpr
    intro it hit
    simp only [collectRendered] at hit
    obtain ⟨i, _, hi⟩ := List.mem_filterMap.mp hit
    cases hw : widgets[i]? with
    | none => rw [hw] at hi; cases hi
    | some w =>
      cases hm : metrics[i]? with
      | none => rw [hw, hm] at hi; cases hi
      | some m =>
        rw [hw, hm] at hi
        cases hi
        simp [hfail i]
  calc renderedCount (sortItems (collectRendered widgets metrics res order))
      = renderedCount (collectRendered widgets metrics res order) :=
        (List.perm_insertionSort titleLe _).countP_eq _
    _ = 0 := h1

theorem processGroup_empty_group (env : Env) (nsName : String)
    (hfail : ∀ i, imgTruthy (resImg (env.renderRes nsName i)) = false)
    (hw : ∃ ws, buildWidgets env.cfg
      (list_metrics_in_namespace (env.catalog nsName) env.cfg.maxMetricsPerNs) = Except.ok ws) :
    processGroup env nsName = Except.ok none := by
  obtain ⟨ws, hws⟩ := hw
  by_cases hme : (list_metrics_in_namespace (env.catalog nsName) env.cfg.maxMetricsPerNs).isEmpty
  · simp [processGroup, hme]
  · have hcount := collectRendered_all_fail ws
      (list_metrics_in_namespace (env.catalog nsName) env.cfg.maxMetricsPerNs)
      (env.renderRes nsName) (env.order nsName) hfail
    simp [processGroup, hme, hws, hcount]

theorem processAll_skip (env : Env) (nsName : String)
    (hsk : processGroup env nsName = Except.ok none) :
    ∀ (l₁ l₂ : List String) (acc : List NsInfo),
      processAll env (l₁ ++ nsName :: l₂) acc = processAll env (l₁ ++ l₂) acc := by
  intro l₁
  induction l₁ with
  | nil => intro l₂ acc; simp [processAll, hsk]
  | cons x t ih =>
    intro l₂ acc
    simp only [List.cons_append, processAll]
    cases hx : processGroup env x with
    | error e => rfl
    | ok o =>
      cases o with
      | none => exact ih l₂ acc
      | some info => exact ih l₂ (acc ++ [info])

/-- C9 (amended): a group whose renders all fail is treated as empty and
skipped without error: `processGroup` yields no document (nothing is stored
or packaged for it), and — contrary to the claim that the group still shows
up in the run summary with `rendered_count = 0` — the run behaves exactly as
if the group were absent from the namespace list, so it appears nowhere in
the summary; no scanned/attempted counts are reported for it. -/
theorem C9_empty_group (env : Env) (nsName : String) (l₁ l₂ : List String)
    (hfail : ∀ i, imgTruthy (resImg (env.renderRes nsName i)) = false)
    (hw : ∃ ws, buildWidgets env.cfg
      (list_metrics_in_namespace (env.catalog nsName) env.cfg.maxMetricsPerNs) = Except.ok ws)
    (hne : l₁ ++ l₂ ≠ []) :
    processGroup env nsName = Except.ok none ∧
    lambda_handler env (l₁ ++ nsName :: l₂) = lambda_handler env (l₁ ++ l₂) := by
  have hsk := processGroup_empty_group env nsName hfail hw
  refine ⟨hsk, ?_⟩
  have h1 : (l₁ ++ nsName :: l₂).isEmpty = false := by
    cases l₁ with
    | nil => rfl
    | cons a b => rfl
  have h2 : (l₁ ++ l₂).isEmpty = false := by
    cases hl : l₁ ++ l₂ with
    | nil => exact absurd hl hne
    | cons a b => simp
  simp only [lambda_handler, h1, h2, Bool.false_eq_true, if_false]
  rw [processAll_skip env nsName hsk l₁ l₂ []]

/-- Witness for C9 (amended): namespace aaa fails every render; the run over
aaa and bbb equals the run over bbb alone. -/
theorem C9_witness :
    processGroup env9 "aaa" = Except.ok none ∧
    lambda_handler env9 ["aaa", "bbb"] = lambda_handler env9 ["bbb"] := by
  have h := C9_empty_group env9 "aaa" [] ["bbb"] (fun i => rfl)
    ⟨[⟨"A", "timeSeries", false, "Average", 300, [["aaa", "A"]], "-PT24H", "PT0M", 1067, 300, 0⟩],
      by decide⟩
    (by decide)
  exact h

/-- Counterexample to C9 as stated: in the concrete run where every render of
namespace aaa fails and bbb succeeds, the run finishes as email_sent, aaa is
absent from the package and from storage — but it is also entirely absent
from the run summary (it does not appear with rendered_count = 0). -/
theorem C9_counterexample :
    runCase run9 = "email_sent" ∧
    runNamespaces run9 = ["bbb"] ∧
    ¬ ("aaa" ∈ runNamespaces run9) ∧
    runPerNsCounts run9 = [("bbb", 1)] ∧
    runStoredKeys run9 = ["cloudwatch/excel/T/bbb.xlsx"] := by
  refine ⟨?_, ?_, ?_, ?_, ?_⟩ <;> decide

theorem collectPages_min (maxN : Nat) :
    ∀ (ps : List (List RawMetric)) (out : List RawMetric),
      min maxN (collectPages maxN ps out).length =
        min maxN (out.length + ps.flatten.length) := by
  intro ps
  induction ps with
  | nil => intro out; simp [collectPages]
  | cons p t ih =>
    intro out
    by_cases h : maxN ≤ (out ++ p).length
    · have hunfold : collectPages maxN (p :: t) out = out ++ p := by
        simp only [collectPages]
        rw [if_pos h]
      rw [hunfold]
      simp only [List.flatten_cons, List.length_append]
      rw [List.length_append] at h
      omega
    · have hunfold : collectPages maxN (p :: t) out = collectPages maxN t (out ++ p) := by
        simp only [collectPages]
        rw [if_neg h]
      rw [hunfold, ih (out ++ p)]
      simp only [List.flatten_cons, List.length_append]
      omega

/-- C10: metric listing silently truncates — the returned list has length
`min cap catalogSize` (so never more than `MAX_METRICS_PER_NS`, whatever the
catalog holds), and the `scanned_count` the driver reports downstream (the
"Metrics scanned" tile of the built Document) is that truncated length, not
the true catalog size. -/
theorem C10_truncation :
    (∀ (pages : List (List RawMetric)) (maxN : Nat),
      (list_metrics_in_namespace pages maxN).length = min maxN pages.flatten.length) ∧
    (∀ (pages : List (List RawMetric)) (maxN : Nat),
      (list_metrics_in_namespace pages maxN).length ≤ maxN) ∧
    (∀ (env : Env) (nsName : String) (info : NsInfo),
      processGroup env nsName = Except.ok (some info) →
      info.doc.metricsScannedTile =
        toString (min env.cfg.maxMetricsPerNs ((env.catalog nsName).flatten.length))) := by
  have hlen : ∀ (pages : List (List RawMetric)) (maxN : Nat),
      (list_metrics_in_namespace pages maxN).length = min maxN pages.flatten.length := by
    intro pages maxN
    have h := collectPages_min maxN pages []
    simp only [list_metrics_in_namespace, List.length_take]
    simpa using h
  refine ⟨hlen, fun pages maxN => by rw [hlen]; exact Nat.min_le_left _ _, ?_⟩
  intro env nsName info h
  simp only [processGroup] at h
  split at h
  · simp at h
  · split at h
    · simp at h
    · split at h
      · simp at h
      · split at h
        · simp at h
        · rename_i ws hws doc hbe
          injection h with h1
          injection h1 with h2
          subst h2
          obtain ⟨_, _, htile, _⟩ := build_excel_ok env.cfg env.now nsName _ _ doc hbe
          show doc.metricsScannedTile = _
          rw [htile, hlen]

/-- Witness for C10 at a catalog of 3 metrics over 2 pages against a cap of 2. -/
theorem C10_witness :
    (list_metrics_in_namespace (cat10 "ns") 2).length = min 2 ((cat10 "ns").flatten.length) ∧
    info10.doc.metricsScannedTile =
      toString (min cfgEx.maxMetricsPerNs ((cat10 "ns").flatten.length)) :=
  ⟨C10_truncation.1 (cat10 "ns") 2,
   C10_truncation.2.2 env10 "ns" info10 (by decide)⟩
